import Mathlib

/-!
Verification of the premium-group moderation bot (`src/bot.py`).

The embedding models:
  * the three MongoDB collections (users, warnings, subscriptions) as lists
    of records inside a `Store`, together with an `ok` flag standing for the
    availability of the backing store (a `PyMongoError` on an operation is
    modelled as `ok = false`: every `DatabaseManager` method catches the
    error, logs, and returns its safe default);
  * each `DatabaseManager` method as a pure function on `Store`
    (`update_one` updates the first record matching the filter,
    `insert_one` appends, `delete_one` removes the first match,
    `find_one` is `List.find?`);
  * the violation classifier inlined in `handle_message`, the escalation
    path `handle_violation` (with the tier branch factored into `dispatch`),
    the manual `admin_warn` command, and the daily expired-subscription
    sweep `check_expired_subscriptions`;
  * Telegram transport calls as `Event`s; a `Transport` record says which
    transport calls succeed.  `effUser`/`effChat` model
    `update.effective_user` / `update.effective_chat` (both `None` on the
    mock update built by `admin_warn`); an outcome whose `action` is `none`
    marks a Python exception escaping `handle_violation` (AttributeError on
    a `None` user/chat, an unprotected failing send, or the unbound-`action`
    NameError when the new count is below 1).

Timestamps are abstract `Nat` seconds; `timedelta(days=d)` is `d * 86400`
and `timedelta(hours=h)` is `h * 3600`.
-/

namespace PremiumBot

abbrev Time := Nat

/-- `UserData` / users collection document (`bot.py` lines 54-79, 143-157). -/
structure UserRec where
  user_id : Int
  username : String
  first_name : String
  last_name : String
  join_date : Time
  warning_count : Int
  is_muted : Bool
  is_banned : Bool
  subscription_expiry : Option Time
  last_warning : Option Time
  last_reminder : Option Time
deriving Repr, DecidableEq

/-- warnings collection document (`DatabaseManager.add_warning`). -/
structure WarningRec where
  user_id : Int
  reason : String
  admin_id : Int
  timestamp : Time
  resolved : Bool
deriving Repr, DecidableEq

/-- subscriptions collection document (`DatabaseManager.add_subscription`). -/
structure SubscriptionRec where
  user_id : Int
  expiry_date : Time
  updated_at : Time
deriving Repr, DecidableEq

/-- The three collections plus the availability of the backing store. -/
structure Store where
  users : List UserRec
  warnings : List WarningRec
  subscriptions : List SubscriptionRec
  ok : Bool
deriving Repr, DecidableEq

/-- Mongo `update_one`: apply `f` to the first element matching `p`. -/
def updateFirst {α : Type} (p : α → Bool) (f : α → α) : List α → List α
  | [] => []
  | x :: xs => if p x then f x :: xs else x :: updateFirst p f xs

/-- Mongo `delete_one`: drop the first element matching `p`. -/
def deleteFirst {α : Type} (p : α → Bool) : List α → List α
  | [] => []
  | x :: xs => if p x then xs else x :: deleteFirst p xs

/-- users-collection lookup by id, ignoring store availability. -/
def findUser (s : Store) (uid : Int) : Option UserRec :=
  s.users.find? (fun u => u.user_id == uid)

/-- subscriptions-collection lookup by id, ignoring store availability. -/
def findSub (s : Store) (uid : Int) : Option SubscriptionRec :=
  s.subscriptions.find? (fun r => r.user_id == uid)

def dayLen : Nat := 86400
def hourLen : Nat := 3600

/-- `DatabaseManager.get_user` (lines 135-141): `find_one`, `None` on error. -/
def get_user (s : Store) (uid : Int) : Option UserRec :=
  if s.ok then findUser s uid else none

/-- `DatabaseManager.create_user` (lines 143-161): `insert_one` of a fresh
record; a duplicate id violates the unique index, the `PyMongoError` is
caught and the store is left unchanged. -/
def create_user (s : Store) (uid : Int) (username fn ln : String) (now : Time) : Store :=
  if s.ok then
    if (findUser s uid).isSome then s
    else { s with users := s.users ++
      [⟨uid, username, fn, ln, now, 0, false, false, none, none, none⟩] }
  else s

/-- `DatabaseManager.update_user_warning` (lines 163-177): `$inc` the
warning count by `+1` (also `$set last_warning`) or `-1`, on the first
record matching the id; returns `modified_count > 0`; `(s, false)` on a
storage error. -/
def update_user_warning (s : Store) (uid : Int) (increment : Bool) (now : Time) :
    Store × Bool :=
  if s.ok then
    let f : UserRec → UserRec := fun u =>
      if increment then
        { u with warning_count := u.warning_count + 1, last_warning := some now }
      else
        { u with warning_count := u.warning_count - 1 }
    let users := updateFirst (fun u => u.user_id == uid) f s.users
    ({ s with users := users }, (findUser s uid).isSome)
  else (s, false)

/-- `DatabaseManager.reset_user_warnings` (lines 179-187). -/
def reset_user_warnings (s : Store) (uid : Int) : Store :=
  if s.ok then
    let users := updateFirst (fun u => u.user_id == uid)
      (fun u => { u with warning_count := 0 }) s.users
    { s with users := users }
  else s

/-- `DatabaseManager.set_user_muted` (lines 189-197). -/
def set_user_muted (s : Store) (uid : Int) (muted : Bool) : Store :=
  if s.ok then
    let users := updateFirst (fun u => u.user_id == uid)
      (fun u => { u with is_muted := muted }) s.users
    { s with users := users }
  else s

/-- `DatabaseManager.set_user_banned` (lines 199-207). -/
def set_user_banned (s : Store) (uid : Int) (banned : Bool) : Store :=
  if s.ok then
    let users := updateFirst (fun u => u.user_id == uid)
      (fun u => { u with is_banned := banned }) s.users
    { s with users := users }
  else s

/-- `DatabaseManager.add_warning` (lines 211-223): `insert_one` of an
immutable warning record with `resolved = False`. -/
def add_warning (s : Store) (uid : Int) (reason : String) (admin_id : Int)
    (now : Time) : Store :=
  if s.ok then
    { s with warnings := s.warnings ++ [⟨uid, reason, admin_id, now, false⟩] }
  else s

/-- insertion into a timestamp-descending list (for `sort(timestamp, DESC)`). -/
def insertDesc (w : WarningRec) : List WarningRec → List WarningRec
  | [] => [w]
  | x :: xs => if x.timestamp ≤ w.timestamp then w :: x :: xs else x :: insertDesc w xs

/-- sort warnings by timestamp, most recent first. -/
def sortDesc : List WarningRec → List WarningRec
  | [] => []
  | x :: xs => insertDesc x (sortDesc xs)

/-- `DatabaseManager.get_user_warnings` (lines 225-234): filter by user,
sort by timestamp descending, take `limit`; `[]` on error. -/
def get_user_warnings (s : Store) (uid : Int) (limit : Nat) : List WarningRec :=
  if s.ok then
    (sortDesc (s.warnings.filter (fun w => w.user_id == uid))).take limit
  else []

/-- `DatabaseManager.add_subscription` (lines 238-262): computes
`expiry_date = utcnow() + timedelta(days=days)` and `$set`s it on the
subscription record (upsert), then `$set`s `subscription_expiry` on the
user record (no upsert). -/
def add_subscription (s : Store) (uid : Int) (days : Nat) (now : Time) : Store :=
  if s.ok then
    let expiry := now + days * dayLen
    let subs :=
      if (findSub s uid).isSome then
        updateFirst (fun r => r.user_id == uid)
          (fun r => { r with expiry_date := expiry, updated_at := now })
          s.subscriptions
      else s.subscriptions ++ [⟨uid, expiry, now⟩]
    let users := updateFirst (fun u => u.user_id == uid)
      (fun u => { u with subscription_expiry := some expiry }) s.users
    { s with subscriptions := subs, users := users }
  else s

/-- `DatabaseManager.get_expired_subscriptions` (lines 264-273): ids of
subscription records with `expiry_date < utcnow()`; `[]` on error. -/
def get_expired_subscriptions (s : Store) (now : Time) : List Int :=
  if s.ok then
    (s.subscriptions.filter (fun r => decide (r.expiry_date < now))).map
      (fun r => r.user_id)
  else []

/-- `DatabaseManager.remove_subscription` (lines 275-284): `delete_one` the
subscription and clear the user's `subscription_expiry`. -/
def remove_subscription (s : Store) (uid : Int) : Store :=
  if s.ok then
    let subs := deleteFirst (fun r => r.user_id == uid) s.subscriptions
    let users := updateFirst (fun u => u.user_id == uid)
      (fun u => { u with subscription_expiry := none }) s.users
    { s with subscriptions := subs, users := users }
  else s

-- ===================== classifier (`handle_message`) =====================

/-- a Telegram message entity; only its `type` string matters here. -/
structure EntityRec where
  type : String
deriving Repr, DecidableEq

/-- the message fields inspected by `handle_message` (lines 378-419). -/
structure MessageRec where
  text : Option String
  caption : Option String
  entities : List EntityRec
  caption_entities : List EntityRec
  forward_date : Option Time
  forward_from : Option Int
  forward_from_chat : Option Int
deriving Repr, DecidableEq

inductive Violation
  | forwarded
  | externalLink
  | suspiciousContent
deriving Repr, DecidableEq

/-- the reason string `handle_message` passes to `handle_violation`. -/
def reasonOf : Violation → String
  | .forwarded => "Forwarded message"
  | .externalLink => "External link"
  | .suspiciousContent => "Suspicious content"

/-- Python `a or b` on strings (`None` and `""` are falsy); used for
`message.text or message.caption or ""`. -/
def pyStrOr (a : Option String) (d : String) : String :=
  match a with
  | some t => if t = "" then d else t
  | none => d

/-- Bool-valued substring test (Python `term in text`). -/
def containsSub (hay needle : String) : Bool :=
  hay.toList.tails.any (fun t => needle.toList.isPrefixOf t)

/-- ASCII lowering of one character (the banned terms are ASCII, so this
matches Python `str.lower` on every relevant comparison). -/
def lowerChar (c : Char) : Char :=
  if 65 ≤ c.toNat ∧ c.toNat ≤ 90 then Char.ofNat (c.toNat + 32) else c

/-- `text.lower()`. -/
def strToLower (s : String) : String := ⟨s.data.map lowerChar⟩

/-- decimal digits to a number; `none` when empty or on a non-digit. -/
def digitsToNat : List Char → Option Nat
  | [] => none
  | cs => cs.foldl (fun acc c =>
      match acc with
      | none => none
      | some n => if c.isDigit then some (n * 10 + (c.toNat - 48)) else none) (some 0)

/-- Python `int(arg)`, `None` standing for the `ValueError` case
(optional sign, then decimal digits). -/
def pyParseInt (s : String) : Option Int :=
  match s.data with
  | '-' :: rest => (digitsToNat rest).map (fun n => -(n : Int))
  | l => (digitsToNat l).map (fun n => (n : Int))

def suspicious_terms : List String :=
  ["leak", "pirate", "unauthorized", "share", "free", "download"]

def isLinkEntity (e : EntityRec) : Bool :=
  e.type == "url" || e.type == "text_link"

/-- the violation checks of `handle_message` (lines 390-419), in source
order: forward markers, then `message.entities or message.caption_entities`
scanned for url/text_link, then the case-insensitive banned-term scan over
`message.text or message.caption or ""`. -/
def classify (m : MessageRec) : Option Violation :=
  if m.forward_date.isSome || m.forward_from.isSome || m.forward_from_chat.isSome then
    some .forwarded
  else if (if m.entities.isEmpty then m.caption_entities else m.entities).any isLinkEntity then
    some .externalLink
  else if suspicious_terms.any (fun t => containsSub (strToLower (pyStrOr m.text (pyStrOr m.caption ""))) t) then
    some .suspiciousContent
  else
    none

/-- the classification outcome of `handle_message`: the admin check on
line 387 runs before any rule. -/
def handle_message_class (adminId senderId : Int) (m : MessageRec) : Option Violation :=
  if senderId = adminId then none else classify m

/-- classifier as §4.2 of the spec words it: the same priority order, with
the hyperlink rule reading "a url/text_link entity in its text or caption",
i.e. the union of the two entity lists.  Used only to compare with
`classify`. -/
def classifySpec (m : MessageRec) : Option Violation :=
  if m.forward_date.isSome || m.forward_from.isSome || m.forward_from_chat.isSome then
    some .forwarded
  else if (m.entities ++ m.caption_entities).any isLinkEntity then
    some .externalLink
  else if suspicious_terms.any (fun t => containsSub (strToLower (pyStrOr m.text (pyStrOr m.caption ""))) t) then
    some .suspiciousContent
  else
    none

-- ===================== escalation engine (`handle_violation`) =====================

/-- transport side effects attempted by the handlers. -/
inductive Event
  | deletedMessage
  | groupSend (chatId : Int) (tag : String)
  | restrictMember (uid : Int) (untilDate : Time)
  | banMember (chatId uid : Int)
  | adminNotify (uid : Int) (reason : String) (newCount : Int) (action : String)
  | adminNotifyExpired (uid : Int)
  | reply (tag : String)
deriving Repr, DecidableEq

/-- which transport calls succeed.  `deleteOk` covers the guarded
`update.message.delete()`; `warnSendOk` the unguarded tier-1
`bot.send_message`; `restrictOk` the tier-2 try block
(`restrict_member` + mute notice); `banOk` the tier-3 try block
(`ban_member` + ban notice). -/
structure Transport where
  deleteOk : Bool
  warnSendOk : Bool
  restrictOk : Bool
  banOk : Bool
deriving Repr, DecidableEq

def MUTE_DURATION : Nat := 24

/-- `user_data.get("warning_count", 0)` with the `{"warning_count": 0}`
fallback of lines 429-432. -/
def currentCount (s : Store) (uid : Int) : Int :=
  match get_user s uid with
  | some u => u.warning_count
  | none => 0

inductive Tier
  | WARNING
  | MUTE
  | BAN
deriving Repr, DecidableEq

/-- outcome of one `handle_violation` call: the resulting store, the
transport events, the `action` string reaching the admin notification
(`none` when a Python exception escapes the handler before it), and the
tier branch entered (`none` when no branch matches). -/
structure VioOutcome where
  store : Store
  events : List Event
  action : Option String
  dispatched : Option Tier
deriving Repr, DecidableEq

/-- the tier branch of `handle_violation` (lines 446-527): `== 1` warning,
`== 2` mute try block, `>= 3` ban try block; a new count below 1 matches no
branch and the later `action` reference raises `NameError` (action
`none`).  The tier-1 notice send is not inside a `try`, so its failure (or
a `None` chat) escapes the handler; tier-2/3 failures are caught and
downgrade the action to `MUTE_FAILED` / `BAN_FAILED`. -/
def dispatch (tr : Transport) (now : Time) (s2 : Store) (uid : Int)
    (effChat : Option Int) (reason : String) (newCount : Int)
    (delEvents : List Event) : VioOutcome :=
  if newCount = 1 then
    match effChat with
    | none => ⟨s2, delEvents, none, some Tier.WARNING⟩
    | some chatId =>
      if tr.warnSendOk then
        ⟨s2, delEvents ++ [Event.groupSend chatId "warning",
            Event.adminNotify uid reason newCount "WARNING"],
          some "WARNING", some Tier.WARNING⟩
      else ⟨s2, delEvents, none, some Tier.WARNING⟩
  else if newCount = 2 then
    match effChat with
    | some chatId =>
      if tr.restrictOk then
        ⟨set_user_muted s2 uid true,
          delEvents ++ [Event.restrictMember uid (now + MUTE_DURATION * hourLen),
            Event.groupSend chatId "mute",
            Event.adminNotify uid reason newCount "MUTE"],
          some "MUTE", some Tier.MUTE⟩
      else
        ⟨s2, delEvents ++ [Event.adminNotify uid reason newCount "MUTE_FAILED"],
          some "MUTE_FAILED", some Tier.MUTE⟩
    | none =>
      ⟨s2, delEvents ++ [Event.adminNotify uid reason newCount "MUTE_FAILED"],
        some "MUTE_FAILED", some Tier.MUTE⟩
  else if 3 ≤ newCount then
    match effChat with
    | some chatId =>
      if tr.banOk then
        ⟨set_user_banned s2 uid true,
          delEvents ++ [Event.banMember chatId uid,
            Event.groupSend chatId "ban",
            Event.adminNotify uid reason newCount "BAN"],
          some "BAN", some Tier.BAN⟩
      else
        ⟨s2, delEvents ++ [Event.adminNotify uid reason newCount "BAN_FAILED"],
          some "BAN_FAILED", some Tier.BAN⟩
    | none =>
      ⟨s2, delEvents ++ [Event.adminNotify uid reason newCount "BAN_FAILED"],
        some "BAN_FAILED", some Tier.BAN⟩
  else ⟨s2, delEvents, none, none⟩

/-- `PremiumModerationBot.handle_violation` (lines 421-538).  `effUser` /
`effChat` are `update.effective_user` / `update.effective_chat`; a `None`
user raises `AttributeError` on `user.id` before anything is persisted.
Otherwise: read the count, optionally delete the message (best effort),
persist the warning record with `ADMIN_ID` as issuer, increment the
count, and branch on the new count; finally `notify_admin` (itself
guarded by `try`, hence modelled as an always-recorded event). -/
def handle_violation (adminId : Int) (tr : Transport) (now : Time)
    (s : Store) (effUser effChat : Option Int)
    (reason : String) (delete_message : Bool) : VioOutcome :=
  match effUser with
  | none => ⟨s, [], none, none⟩
  | some uid =>
    let newCount := currentCount s uid + 1
    let delEvents : List Event :=
      if delete_message then (if tr.deleteOk then [Event.deletedMessage] else []) else []
    let s1 := add_warning s uid reason adminId now
    let s2 := (update_user_warning s1 uid true now).1
    dispatch tr now s2 uid effChat reason newCount delEvents

/-- `handle_message` end to end: admin exemption, classification, then the
escalation path with `delete_message=True` and the sender as offender. -/
def handle_message_full (adminId : Int) (tr : Transport) (now : Time)
    (s : Store) (senderId chatId : Int) (m : MessageRec) : VioOutcome :=
  if senderId = adminId then ⟨s, [], none, none⟩
  else
    match classify m with
    | some v => handle_violation adminId tr now s (some senderId) (some chatId) (reasonOf v) true
    | none => ⟨s, [], none, none⟩

-- ===================== admin `warn` command =====================

/-- `PremiumModerationBot.admin_warn` (lines 646-686): non-admin senders
are ignored; fewer than two args gets the usage reply; a non-integer first
arg raises `ValueError`; otherwise a mock `Update` is built whose
`effective_user` and `effective_chat` are both `None` — the parsed user id
is never passed to `handle_violation` — and the `AttributeError` raised
there is caught by the generic `except`, producing the error reply. -/
def admin_warn (adminId : Int) (tr : Transport) (now : Time)
    (s : Store) (senderId : Int) (args : List String) : Store × List Event :=
  if senderId ≠ adminId then (s, [])
  else if args.length < 2 then (s, [Event.reply "usage"])
  else
    match pyParseInt (args.headD "") with
    | none => (s, [Event.reply "invalid_user_id"])
    | some _uid =>
      let reason := " ".intercalate args.tail
      let out := handle_violation adminId tr now s none none
        ("Admin manual: " ++ reason) false
      match out.action with
      | none => (out.store, out.events ++ [Event.reply "error_issuing_warning"])
      | some _ => (out.store, out.events ++ [Event.reply "warning_issued"])

-- ===================== subscription sweep =====================

/-- one iteration of the `check_expired_subscriptions` loop (lines
583-612): look the user up (skip silently when absent), `ban_chat_member`
(ids in `banFails` raise; the `except` inside the loop catches and moves
on), then delete the subscription, set the ban flag and notify the
admin. -/
def sweepUser (banFails : List Int) (g : Int) (acc : Store × List Event)
    (uid : Int) : Store × List Event :=
  match get_user acc.1 uid with
  | none => acc
  | some _ =>
    if banFails.contains uid then acc
    else
      (set_user_banned (remove_subscription acc.1 uid) uid true,
       acc.2 ++ [Event.banMember g uid, Event.adminNotifyExpired uid])

/-- `PremiumModerationBot.check_expired_subscriptions` (lines 576-612):
no-op without a recorded group id; otherwise fold the per-user step over
the expired list. -/
def check_expired_subscriptions (groupId : Option Int) (banFails : List Int)
    (now : Time) (s : Store) : Store × List Event :=
  match groupId with
  | none => (s, [])
  | some g =>
    (get_expired_subscriptions s now).foldl (fun acc uid => sweepUser banFails g acc uid)
      (s, [])

-- ===================== record-store operation language =====================

/-- the Record Store operations the bot invokes (every `DatabaseManager`
mutation reachable from the handlers; the warning increment is always
called with `increment=True`). -/
inductive StoreOp
  | createUserOp (uid : Int) (un fn ln : String)
  | incWarningOp (uid : Int)
  | resetWarningsOp (uid : Int)
  | setMutedOp (uid : Int) (b : Bool)
  | setBannedOp (uid : Int) (b : Bool)
  | addWarningOp (uid : Int) (reason : String) (aid : Int)
  | addSubscriptionOp (uid : Int) (days : Nat)
  | removeSubscriptionOp (uid : Int)
deriving Repr, DecidableEq

def applyOp (now : Time) (s : Store) : StoreOp → Store
  | .createUserOp uid un fn ln => create_user s uid un fn ln now
  | .incWarningOp uid => (update_user_warning s uid true now).1
  | .resetWarningsOp uid => reset_user_warnings s uid
  | .setMutedOp uid b => set_user_muted s uid b
  | .setBannedOp uid b => set_user_banned s uid b
  | .addWarningOp uid r a => add_warning s uid r a now
  | .addSubscriptionOp uid d => add_subscription s uid d now
  | .removeSubscriptionOp uid => remove_subscription s uid

def isResetOp : StoreOp → Bool
  | .resetWarningsOp _ => true
  | _ => false

/-- the warning count the users collection holds for `uid` (0 when there
is no record, matching the default used everywhere in the bot). -/
def countOfUsers (l : List UserRec) (uid : Int) : Int :=
  match l.find? (fun u => u.user_id == uid) with
  | some u => u.warning_count
  | none => 0

def countOf (s : Store) (uid : Int) : Int := countOfUsers s.users uid

/-- tier associated to a new warning count, as the dispatch of lines
446-527 assigns it. -/
def tierOf (n : Int) : Option Tier :=
  if n = 1 then some Tier.WARNING
  else if n = 2 then some Tier.MUTE
  else if 3 ≤ n then some Tier.BAN
  else none

/-- iterated automatic violations by the same offender. -/
def violLoop (adminId : Int) (tr : Transport) (now : Time)
    (uid chatId : Int) (reason : String) : Nat → Store → Store
  | 0, s => s
  | n + 1, s =>
    violLoop adminId tr now uid chatId reason n
      (handle_violation adminId tr now s (some uid) (some chatId) reason true).store

-- ===================== concrete fixtures =====================

/-- transport where every call succeeds. -/
def trAll : Transport := ⟨true, true, true, true⟩

/-- transport where the unguarded tier-1 warning send raises. -/
def trWarnFail : Transport := ⟨true, false, true, true⟩

/-- a fresh member record, id 1, no warnings. -/
def uFix : UserRec := ⟨1, "", "u", "", 0, 0, false, false, none, none, none⟩

/-- store holding just `uFix`, backing store up. -/
def sFix : Store := ⟨[uFix], [], [], true⟩

/-- same store while the backing store is unreachable. -/
def sDown : Store := ⟨[uFix], [], [], false⟩

/-- empty store, backing store up. -/
def sEmpty : Store := ⟨[], [], [], true⟩

/-- `uFix` holding a subscription that expires 30 days after time 10. -/
def sSubFix : Store := ⟨[uFix], [], [⟨1, 10 + 30 * dayLen, 0⟩], true⟩

/-- store for the sweep: expired subscriptions for ids 1 and 2, but a
users-collection record only for id 2. -/
def sSweepFix : Store :=
  ⟨[⟨2, "", "b", "", 0, 0, false, false, some 0, none, none⟩], [],
   [⟨1, 0, 0⟩, ⟨2, 0, 0⟩], true⟩

/-- a message whose text carries a url entity. -/
def mLinkFix : MessageRec := ⟨some "see this", none, [⟨"url"⟩], [], none, none, none⟩

/-- transport where the mute and ban blocks raise but sends succeed. -/
def trSanctionFail : Transport := ⟨true, true, false, false⟩

-- ===================== helper lemmas =====================

theorem updateFirst_of_find?_none {α : Type} (p : α → Bool) (f : α → α)
    (l : List α) (h : l.find? p = none) : updateFirst p f l = l := by
  induction l with
  | nil => rfl
  | cons x xs ih =>
    rw [List.find?_eq_none] at h
    have hx : ¬ (p x = true) := h x (List.mem_cons_self x xs)
    have hxs : xs.find? p = none := by
      rw [List.find?_eq_none]
      exact fun y hy => h y (List.mem_cons_of_mem x hy)
    simp [updateFirst, hx, ih hxs]

theorem find?_updateFirst_same {α : Type} (p : α → Bool) (f : α → α)
    (hf : ∀ x, p (f x) = p x) (l : List α) :
    (updateFirst p f l).find? p = (l.find? p).map f := by
  induction l with
  | nil => rfl
  | cons x xs ih =>
    by_cases hx : p x = true
    · have hfx : p (f x) = true := by rw [hf]; exact hx
      simp [updateFirst, hx, List.find?_cons_of_pos _ hfx, List.find?_cons_of_pos _ hx]
    · simp [updateFirst, hx, List.find?_cons_of_neg _ hx, ih]

theorem find?_updateFirst_other {α : Type} (p q : α → Bool) (f : α → α)
    (hfq : ∀ x, q (f x) = q x) (hdisj : ∀ x, p x = true → q x = false)
    (l : List α) : (updateFirst p f l).find? q = l.find? q := by
  induction l with
  | nil => rfl
  | cons x xs ih =>
    by_cases hx : p x = true
    · have hqx : q x = false := hdisj x hx
      have hqfx : q (f x) = false := by rw [hfq]; exact hqx
      simp [updateFirst, hx, List.find?_cons_of_neg, hqx, hqfx]
    · by_cases hqx : q x = true
      · simp [updateFirst, hx, List.find?_cons_of_pos _ hqx]
      · simp [updateFirst, hx, List.find?_cons_of_neg _ hqx, ih]

theorem mem_updateFirst {α : Type} (p : α → Bool) (f : α → α) (y : α)
    (l : List α) (hy : y ∈ updateFirst p f l) :
    y ∈ l ∨ ∃ x, x ∈ l ∧ y = f x := by
  induction l with
  | nil => exact absurd hy (by simp [updateFirst])
  | cons x xs ih =>
    by_cases hx : p x = true
    · simp [updateFirst, hx] at hy
      rcases hy with hy | hy
      · exact Or.inr ⟨x, by simp, hy⟩
      · exact Or.inl (by simp [hy])
    · simp [updateFirst, hx] at hy
      rcases hy with hy | hy
      · exact Or.inl (by simp [hy])
      · rcases ih hy with h1 | ⟨z, hz, hzf⟩
        · exact Or.inl (List.mem_cons_of_mem x h1)
        · exact Or.inr ⟨z, List.mem_cons_of_mem x hz, hzf⟩

theorem countOfUsers_updateFirst_preserve (t uid : Int) (f : UserRec → UserRec)
    (hkey : ∀ x, (f x).user_id = x.user_id)
    (hcnt : ∀ x, (f x).warning_count = x.warning_count) (l : List UserRec) :
    countOfUsers (updateFirst (fun u => u.user_id == t) f l) uid = countOfUsers l uid := by
  unfold countOfUsers
  by_cases huid : uid = t
  · subst huid
    rw [find?_updateFirst_same _ f (fun x => by simp [hkey x])]
    cases h : l.find? (fun u => u.user_id == uid) <;> simp [hcnt]
  · rw [find?_updateFirst_other _ _ f (fun x => by simp [hkey x])
      (fun x hx => by
        rw [beq_iff_eq] at hx
        rw [beq_eq_false_iff_ne]
        omega)]

theorem countOfUsers_updateFirst_mono (t uid : Int) (f : UserRec → UserRec)
    (hkey : ∀ x, (f x).user_id = x.user_id)
    (hle : ∀ x, x.warning_count ≤ (f x).warning_count) (l : List UserRec) :
    countOfUsers l uid ≤ countOfUsers (updateFirst (fun u => u.user_id == t) f l) uid := by
  unfold countOfUsers
  by_cases huid : uid = t
  · subst huid
    rw [find?_updateFirst_same _ f (fun x => by simp [hkey x])]
    cases h : l.find? (fun u => u.user_id == uid) <;> simp [hle]
  · rw [find?_updateFirst_other _ _ f (fun x => by simp [hkey x])
      (fun x hx => by
        rw [beq_iff_eq] at hx
        rw [beq_eq_false_iff_ne]
        omega)]

theorem countOfUsers_update_inc (uid : Int) (now : Time) (l : List UserRec)
    (h : (l.find? (fun u => u.user_id == uid)).isSome = true) :
    countOfUsers (updateFirst (fun u => u.user_id == uid)
      (fun u => { u with warning_count := u.warning_count + 1, last_warning := some now }) l) uid
      = countOfUsers l uid + 1 := by
  unfold countOfUsers
  rw [find?_updateFirst_same (fun u => u.user_id == uid)
    (fun u => { u with warning_count := u.warning_count + 1, last_warning := some now })
    (fun x => rfl) l]
  cases hf : l.find? (fun u => u.user_id == uid) with
  | none => rw [hf] at h; simp at h
  | some u => simp [hf]

theorem nonneg_updateFirst (p : UserRec → Bool) (f : UserRec → UserRec)
    (hf : ∀ x, 0 ≤ x.warning_count → 0 ≤ (f x).warning_count)
    (l : List UserRec) (h : ∀ u ∈ l, 0 ≤ u.warning_count) :
    ∀ u ∈ updateFirst p f l, 0 ≤ u.warning_count := by
  intro u hu
  rcases mem_updateFirst p f u l hu with h1 | ⟨x, hx, hxf⟩
  · exact h u h1
  · rw [hxf]; exact hf x (h x hx)

theorem countOfUsers_append_mono (l : List UserRec) (a : UserRec) (uid : Int)
    (ha : 0 ≤ a.warning_count) :
    countOfUsers l uid ≤ countOfUsers (l ++ [a]) uid := by
  unfold countOfUsers
  rw [List.find?_append]
  cases h : l.find? (fun u => u.user_id == uid)
  · simp only [Option.none_or]
    cases h2 : [a].find? (fun u => u.user_id == uid) with
    | none => simp
    | some b =>
      have hb : b = a := by
        rw [List.find?_singleton] at h2
        by_cases hpa : (a.user_id == uid) = true
        · rw [if_pos hpa] at h2
          injection h2 with h2
          exact h2.symm
        · rw [if_neg hpa] at h2
          exact absurd h2 (by simp)
      simp [hb, ha]
  · simp

theorem add_warning_users (s : Store) (uid : Int) (r : String) (a : Int) (now : Time) :
    (add_warning s uid r a now).users = s.users := by
  unfold add_warning; split <;> rfl

theorem add_warning_ok (s : Store) (uid : Int) (r : String) (a : Int) (now : Time) :
    (add_warning s uid r a now).ok = s.ok := by
  unfold add_warning; split <;> rfl

theorem add_warning_warnings_of_ok (s : Store) (uid : Int) (r : String) (a : Int)
    (now : Time) (h : s.ok = true) :
    (add_warning s uid r a now).warnings = s.warnings ++ [⟨uid, r, a, now, false⟩] := by
  simp [add_warning, h]

theorem update_user_warning_warnings (s : Store) (uid : Int) (b : Bool) (now : Time) :
    ((update_user_warning s uid b now).1).warnings = s.warnings := by
  unfold update_user_warning; split <;> rfl

theorem update_user_warning_ok (s : Store) (uid : Int) (b : Bool) (now : Time) :
    ((update_user_warning s uid b now).1).ok = s.ok := by
  unfold update_user_warning; split <;> rfl

theorem set_user_muted_warnings (s : Store) (uid : Int) (b : Bool) :
    (set_user_muted s uid b).warnings = s.warnings := by
  unfold set_user_muted; split <;> rfl

theorem set_user_banned_warnings (s : Store) (uid : Int) (b : Bool) :
    (set_user_banned s uid b).warnings = s.warnings := by
  unfold set_user_banned; split <;> rfl

theorem set_user_muted_countOf (s : Store) (uid : Int) (b : Bool) (v : Int) :
    countOf (set_user_muted s uid b) v = countOf s v := by
  unfold set_user_muted countOf
  split
  · exact countOfUsers_updateFirst_preserve uid v
      (fun u => { u with is_muted := b }) (fun x => rfl) (fun x => rfl) s.users
  · rfl

theorem set_user_banned_countOf (s : Store) (uid : Int) (b : Bool) (v : Int) :
    countOf (set_user_banned s uid b) v = countOf s v := by
  unfold set_user_banned countOf
  split
  · exact countOfUsers_updateFirst_preserve uid v
      (fun u => { u with is_banned := b }) (fun x => rfl) (fun x => rfl) s.users
  · rfl

theorem countOf_update_inc (s : Store) (uid : Int) (now : Time)
    (hok : s.ok = true) (h : (findUser s uid).isSome = true) :
    countOf (update_user_warning s uid true now).1 uid = countOf s uid + 1 := by
  unfold update_user_warning
  rw [if_pos hok]
  unfold countOf
  exact countOfUsers_update_inc uid now s.users h

theorem update_user_warning_users_of_none (s : Store) (uid : Int) (b : Bool)
    (now : Time) (hu : findUser s uid = none) :
    ((update_user_warning s uid b now).1).users = s.users := by
  unfold update_user_warning
  split
  · exact updateFirst_of_find?_none _ _ s.users hu
  · rfl

-- ===================== dispatch characterization =====================

theorem dispatch_dispatched (tr : Transport) (now : Time) (s2 : Store) (uid : Int)
    (effChat : Option Int) (reason : String) (n : Int) (delEvents : List Event) :
    (dispatch tr now s2 uid effChat reason n delEvents).dispatched = tierOf n := by
  unfold dispatch tierOf
  by_cases h1 : n = 1
  · cases effChat <;> by_cases hw : tr.warnSendOk <;> simp [h1, hw]
  · by_cases h2 : n = 2
    · cases effChat <;> by_cases hr : tr.restrictOk <;> simp [h1, h2, hr]
    · by_cases h3 : 3 ≤ n
      · cases effChat <;> by_cases hb : tr.banOk <;> simp [h1, h2, h3, hb]
      · simp [h1, h2, h3]

theorem dispatch_store_warnings (tr : Transport) (now : Time) (s2 : Store) (uid : Int)
    (effChat : Option Int) (reason : String) (n : Int) (delEvents : List Event) :
    (dispatch tr now s2 uid effChat reason n delEvents).store.warnings = s2.warnings := by
  unfold dispatch
  by_cases h1 : n = 1
  · cases effChat <;> by_cases hw : tr.warnSendOk <;>
      simp [h1, hw, set_user_muted_warnings, set_user_banned_warnings]
  · by_cases h2 : n = 2
    · cases effChat <;> by_cases hr : tr.restrictOk <;>
        simp [h1, h2, hr, set_user_muted_warnings, set_user_banned_warnings]
    · by_cases h3 : 3 ≤ n
      · cases effChat <;> by_cases hb : tr.banOk <;>
          simp [h1, h2, h3, hb, set_user_muted_warnings, set_user_banned_warnings]
      · simp [h1, h2, h3]

theorem dispatch_store_countOf (tr : Transport) (now : Time) (s2 : Store) (uid : Int)
    (effChat : Option Int) (reason : String) (n : Int) (delEvents : List Event) (v : Int) :
    countOf (dispatch tr now s2 uid effChat reason n delEvents).store v = countOf s2 v := by
  unfold dispatch
  by_cases h1 : n = 1
  · cases effChat <;> by_cases hw : tr.warnSendOk <;>
      simp [h1, hw, set_user_muted_countOf, set_user_banned_countOf]
  · by_cases h2 : n = 2
    · cases effChat <;> by_cases hr : tr.restrictOk <;>
        simp [h1, h2, hr, set_user_muted_countOf, set_user_banned_countOf]
    · by_cases h3 : 3 ≤ n
      · cases effChat <;> by_cases hb : tr.banOk <;>
          simp [h1, h2, h3, hb, set_user_muted_countOf, set_user_banned_countOf]
      · simp [h1, h2, h3]

theorem dispatch_notify (tr : Transport) (now : Time) (s2 : Store) (uid chatId : Int)
    (reason : String) (n : Int) (delEvents : List Event)
    (hw : tr.warnSendOk = true) (hn : 1 ≤ n) :
    ∃ a, (dispatch tr now s2 uid (some chatId) reason n delEvents).action = some a
      ∧ Event.adminNotify uid reason n a
          ∈ (dispatch tr now s2 uid (some chatId) reason n delEvents).events := by
  by_cases h1 : n = 1
  · exact ⟨"WARNING", by simp [dispatch, h1, hw], by simp [dispatch, h1, hw]⟩
  · by_cases h2 : n = 2
    · by_cases hr : tr.restrictOk
      · exact ⟨"MUTE", by simp [dispatch, h1, h2, hr], by simp [dispatch, h1, h2, hr]⟩
      · exact ⟨"MUTE_FAILED", by simp [dispatch, h1, h2, hr], by simp [dispatch, h1, h2, hr]⟩
    · have h3 : 3 ≤ n := by omega
      by_cases hb : tr.banOk
      · exact ⟨"BAN", by simp [dispatch, h1, h2, h3, hb], by simp [dispatch, h1, h2, h3, hb]⟩
      · exact ⟨"BAN_FAILED", by simp [dispatch, h1, h2, h3, hb],
          by simp [dispatch, h1, h2, h3, hb]⟩

/-- unfolding of `handle_violation` on a present user to the dispatch form. -/
theorem handle_violation_eq_dispatch (adminId : Int) (tr : Transport) (now : Time)
    (s : Store) (uid : Int) (effChat : Option Int) (reason : String) (del : Bool) :
    handle_violation adminId tr now s (some uid) effChat reason del
      = dispatch tr now
          (update_user_warning (add_warning s uid reason adminId now) uid true now).1
          uid effChat reason (currentCount s uid + 1)
          (if del then (if tr.deleteOk then [Event.deletedMessage] else []) else []) := rfl

-- ===================== claims =====================

/-- C1: on every detected violation the tier dispatched is a function of
the new warning count (old count + 1) alone: a new count of 1 dispatches
WARNING, 2 dispatches MUTE, any count ≥ 3 dispatches BAN; the tier is the
same for every transport outcome and every current time, so no
time-triggered transition can reset it. -/
theorem c1_tier_dispatch (adminId : Int) (tr : Transport) (now : Time) (s : Store)
    (uid chatId : Int) (reason : String) (del : Bool) :
    (handle_violation adminId tr now s (some uid) (some chatId) reason del).dispatched
      = tierOf (currentCount s uid + 1)
    ∧ tierOf 1 = some Tier.WARNING
    ∧ tierOf 2 = some Tier.MUTE
    ∧ (∀ n : Int, 3 ≤ n → tierOf n = some Tier.BAN) := by
  refine ⟨?_, by decide, by decide, ?_⟩
  · rw [handle_violation_eq_dispatch]
    exact dispatch_dispatched tr now _ uid (some chatId) reason _ _
  · intro n hn
    unfold tierOf
    rw [if_neg (by omega), if_neg (by omega), if_pos hn]

/-- C2 counterexample: a user holding a subscription that expires at
`10 + 30*dayLen` renews for 5 more days at time 10; the stored expiry
becomes `10 + 5*dayLen`, not `max(now, existing expiry) + 5 days` as the
claim states. -/
theorem c2_counterexample :
    (findSub (add_subscription sSubFix 1 5 10) 1).map (fun r => r.expiry_date)
      = some (10 + 5 * dayLen)
    ∧ 10 + 5 * dayLen ≠ max 10 (10 + 30 * dayLen) + 5 * dayLen := by
  exact ⟨by decide, by decide⟩

/-- C2 amended: `add_subscription` always sets the subscription expiry to
`now + durationDays`, overwriting any existing expiry (so a 30-day then
10-day renewal before expiry leaves `now + 10 days`), and refreshes the
user record's `subscription_expiry` to the same value. -/
theorem c2_amended (s : Store) (uid : Int) (days : Nat) (now : Time)
    (hok : s.ok = true) :
    (findSub (add_subscription s uid days now) uid).map (fun r => r.expiry_date)
      = some (now + days * dayLen)
    ∧ ((findUser s uid).isSome = true →
        (findUser (add_subscription s uid days now) uid).map (fun u => u.subscription_expiry)
          = some (some (now + days * dayLen))) := by
  simp only [add_subscription, hok, if_true, findSub, findUser]
  constructor
  · by_cases hs : (s.subscriptions.find? (fun r => r.user_id == uid)).isSome = true
    · rw [if_pos hs]
      rw [find?_updateFirst_same (fun r => r.user_id == uid)
        (fun r => { r with expiry_date := now + days * dayLen, updated_at := now })
        (fun x => rfl) s.subscriptions]
      obtain ⟨r, hr⟩ := Option.isSome_iff_exists.mp hs
      rw [hr]
      rfl
    · rw [if_neg hs]
      have hnone : s.subscriptions.find? (fun r => r.user_id == uid) = none := by
        cases hfind : s.subscriptions.find? (fun r => r.user_id == uid) with
        | none => rfl
        | some r => rw [hfind] at hs; simp at hs
      rw [List.find?_append, hnone]
      simp
  · intro husome
    rw [find?_updateFirst_same (fun u => u.user_id == uid)
      (fun u => { u with subscription_expiry := some (now + days * dayLen) })
      (fun x => rfl) s.users]
    obtain ⟨u, hu⟩ := Option.isSome_iff_exists.mp husome
    rw [hu]
    rfl

/-- C2 amended, witness at a concrete renewal. -/
theorem c2_amended_witness :
    (findSub (add_subscription sSubFix 1 5 10) 1).map (fun r => r.expiry_date)
      = some (10 + 5 * dayLen)
    ∧ ((findUser sSubFix 1).isSome = true →
        (findUser (add_subscription sSubFix 1 5 10) 1).map (fun u => u.subscription_expiry)
          = some (some (10 + 5 * dayLen))) :=
  c2_amended sSubFix 1 5 10 rfl

/-- C3: the manual `warn 1 spam` command issued by the configured admin
(id 7) leaves the store untouched and produces only the error reply: the
mock update it builds has no `effective_user`, so `handle_violation`
raises before reaching any of the escalation steps, and the parsed user
id 1 (whose record exists in `sFix`) gets neither a Warning record nor a
count change. -/
theorem c3_mock_warn_bug :
    admin_warn 7 trAll 0 sFix 7 ["1", "spam"]
      = (sFix, [Event.reply "error_issuing_warning"])
    ∧ (admin_warn 7 trAll 0 sFix 7 ["1", "spam"]).1.warnings = []
    ∧ countOf (admin_warn 7 trAll 0 sFix 7 ["1", "spam"]).1 1 = 0 := by
  exact ⟨by decide, by decide, by decide⟩

/-- C5 counterexample: the store does offer an operation that decrements
the warning count — `update_user_warning` with `increment = False` — and
applying it to a user whose count is 0 drives the persisted count to −1,
below zero and with no admin reset involved. -/
theorem c5_counterexample :
    countOf sFix 1 = 0
    ∧ countOf (update_user_warning sFix 1 false 0).1 1 = -1
    ∧ ¬ (0 : Int) ≤ countOf (update_user_warning sFix 1 false 0).1 1 := by
  exact ⟨by decide, by decide, by decide⟩

/-- C7: when the backing store is unavailable every `DatabaseManager`
operation returns its safe default instead of propagating the failure:
`get_user` is `none`, the list queries are `[]`, the warning increment
reports `false`, and every mutation returns the store unchanged. -/
theorem c7_safe_defaults (s : Store) (uid : Int) (limit : Nat) (inc : Bool)
    (un fn ln reason : String) (aid : Int) (b : Bool) (days : Nat) (now : Time)
    (hfail : s.ok = false) :
    get_user s uid = none
    ∧ get_user_warnings s uid limit = []
    ∧ get_expired_subscriptions s now = []
    ∧ update_user_warning s uid inc now = (s, false)
    ∧ create_user s uid un fn ln now = s
    ∧ reset_user_warnings s uid = s
    ∧ set_user_muted s uid b = s
    ∧ set_user_banned s uid b = s
    ∧ add_warning s uid reason aid now = s
    ∧ add_subscription s uid days now = s
    ∧ remove_subscription s uid = s := by
  refine ⟨?_, ?_, ?_, ?_, ?_, ?_, ?_, ?_, ?_, ?_, ?_⟩ <;>
    simp [get_user, get_user_warnings, get_expired_subscriptions, update_user_warning,
      create_user, reset_user_warnings, set_user_muted, set_user_banned, add_warning,
      add_subscription, remove_subscription, hfail]

/-- C7, witness on a concrete unavailable store. -/
theorem c7_safe_defaults_witness :
    get_user sDown 1 = none
    ∧ get_user_warnings sDown 1 10 = []
    ∧ get_expired_subscriptions sDown 99 = []
    ∧ update_user_warning sDown 1 true 99 = (sDown, false)
    ∧ create_user sDown 1 "a" "b" "c" 99 = sDown
    ∧ reset_user_warnings sDown 1 = sDown
    ∧ set_user_muted sDown 1 true = sDown
    ∧ set_user_banned sDown 1 true = sDown
    ∧ add_warning sDown 1 "r" 7 99 = sDown
    ∧ add_subscription sDown 1 5 99 = sDown
    ∧ remove_subscription sDown 1 = sDown :=
  c7_safe_defaults sDown 1 10 true "a" "b" "c" "r" 7 true 5 99 rfl

/-- C4 counterexample: with the configured administrator id 7 (startup
refuses 0), an automatically detected "External link" violation stores a
Warning whose issuing admin id is 7, not 0 — `handle_violation` passes
`ADMIN_ID` to `add_warning` on line 443. -/
theorem c4_counterexample :
    (handle_message_full 7 trAll 0 sFix 1 5 mLinkFix).store.warnings
      = [⟨1, "External link", 7, 0, false⟩]
    ∧ (7 : Int) ≠ 0 := by
  exact ⟨by decide, by decide⟩

/-- C4 amended: every violation handled with a present user appends
exactly one immutable Warning record carrying the reason and the
configured `ADMIN_ID` as issuer (not 0), and increments the persisted
count of an existing user record — both before the tier handler runs and
therefore unaffected by any mute/ban transport failure. -/
theorem c4_amended (adminId : Int) (tr : Transport) (now : Time) (s : Store)
    (uid chatId : Int) (reason : String) (del : Bool) (hok : s.ok = true) :
    (handle_violation adminId tr now s (some uid) (some chatId) reason del).store.warnings
      = s.warnings ++ [⟨uid, reason, adminId, now, false⟩]
    ∧ ((findUser s uid).isSome = true →
        countOf (handle_violation adminId tr now s (some uid) (some chatId) reason del).store uid
          = countOf s uid + 1) := by
  rw [handle_violation_eq_dispatch]
  constructor
  · rw [dispatch_store_warnings, update_user_warning_warnings]
    exact add_warning_warnings_of_ok s uid reason adminId now hok
  · intro hsome
    rw [dispatch_store_countOf]
    have hok1 : (add_warning s uid reason adminId now).ok = true := by
      rw [add_warning_ok]; exact hok
    have hsome1 : (findUser (add_warning s uid reason adminId now) uid).isSome = true := by
      unfold findUser
      rw [add_warning_users]
      exact hsome
    rw [countOf_update_inc _ uid now hok1 hsome1]
    unfold countOf countOfUsers
    rw [add_warning_users]

/-- C4 amended, witness: both sanction blocks fail and the record is
still appended with issuer 7 and the count still moves up. -/
theorem c4_amended_witness :
    (handle_violation 7 trSanctionFail 0 sFix (some 1) (some 5) "r" true).store.warnings
      = sFix.warnings ++ [⟨1, "r", 7, 0, false⟩]
    ∧ ((findUser sFix 1).isSome = true →
        countOf (handle_violation 7 trSanctionFail 0 sFix (some 1) (some 5) "r" true).store 1
          = countOf sFix 1 + 1) :=
  c4_amended 7 trSanctionFail 0 sFix 1 5 "r" true rfl

/-- C6: for messages that do not carry both text entities and caption
entities at once (a Telegram message has either text or a caption, never
both), the inlined classifier of `handle_message` coincides with the
spec's priority-ordered total function — Forwarded, then ExternalLink
over the entities of text or caption, then the case-insensitive
banned-substring rule, else no violation — and a message from the
configured administrator is never classified. -/
theorem c6_classifier (adminId senderId : Int) (m : MessageRec)
    (h : m.entities = [] ∨ m.caption_entities = []) :
    handle_message_class adminId senderId m
      = (if senderId = adminId then none else classifySpec m)
    ∧ handle_message_class adminId adminId m = none := by
  constructor
  · unfold handle_message_class classify classifySpec
    have hl : ((if m.entities.isEmpty then m.caption_entities else m.entities).any isLinkEntity)
        = ((m.entities ++ m.caption_entities).any isLinkEntity) := by
      rcases h with h | h
      · simp [h]
      · cases he : m.entities <;> simp [h, he]
    rw [hl]
  · simp [handle_message_class]

/-- C6, witness on a url-bearing message from a non-admin. -/
theorem c6_classifier_witness :
    handle_message_class 7 3 mLinkFix = (if (3 : Int) = 7 then none else classifySpec mLinkFix)
    ∧ handle_message_class 7 7 mLinkFix = none :=
  c6_classifier 7 3 mLinkFix (Or.inr rfl)

/-- C8 counterexample: on a first violation whose unguarded tier-1 warning
send raises, `handle_violation` aborts before `notify_admin` — the event
trace holds only the message deletion and no admin notification. -/
theorem c8_counterexample :
    (handle_violation 7 trWarnFail 0 sFix (some 1) (some 5) "r" true).events
      = [Event.deletedMessage]
    ∧ (handle_violation 7 trWarnFail 0 sFix (some 1) (some 5) "r" true).action = none := by
  exact ⟨by decide, by decide⟩

/-- C8 amended: provided the tier-1 warning send does not raise (it sits
outside any `try`), the admin notification carrying the user, reason, new
count and resulting action is emitted for every handled violation,
whatever the outcome of the mute/ban blocks — their failures are caught
and only downgrade the action tag. -/
theorem c8_notify (adminId : Int) (tr : Transport) (now : Time) (s : Store)
    (uid chatId : Int) (reason : String) (del : Bool)
    (hsend : tr.warnSendOk = true) (hc : 0 ≤ currentCount s uid) :
    ∃ a, (handle_violation adminId tr now s (some uid) (some chatId) reason del).action = some a
      ∧ Event.adminNotify uid reason (currentCount s uid + 1) a
          ∈ (handle_violation adminId tr now s (some uid) (some chatId) reason del).events := by
  rw [handle_violation_eq_dispatch]
  exact dispatch_notify tr now _ uid chatId reason _ _ hsend (by omega)

/-- C8 amended, witness: both sanction blocks fail yet the notification
is in the trace. -/
theorem c8_notify_witness :
    ∃ a, (handle_violation 7 trSanctionFail 0 sFix (some 1) (some 5) "r" true).action = some a
      ∧ Event.adminNotify 1 "r" (currentCount sFix 1 + 1) a
          ∈ (handle_violation 7 trSanctionFail 0 sFix (some 1) (some 5) "r" true).events :=
  c8_notify 7 trSanctionFail 0 sFix 1 5 "r" true rfl (by decide)

/-- C5 amended: under the operations the bot actually invokes (`StoreOp`),
warning counts stay nonnegative and are non-decreasing except for the
explicit admin reset, which zeroes an existing record; the store however
also offers `update_user_warning` with `increment=False`, a floor-less
decrement (see the counterexample), which no bot handler calls. -/
theorem c5_amended (now : Time) (s : Store) (op : StoreOp) (uid : Int)
    (hnn : ∀ u ∈ s.users, 0 ≤ u.warning_count) :
    (∀ u ∈ (applyOp now s op).users, 0 ≤ u.warning_count)
    ∧ (isResetOp op = false → countOf s uid ≤ countOf (applyOp now s op) uid)
    ∧ (s.ok = true → (findUser s uid).isSome = true →
        countOf (applyOp now s (StoreOp.resetWarningsOp uid)) uid = 0) := by
  refine ⟨?_, ?_, ?_⟩
  · cases op with
    | createUserOp v un fn ln =>
      simp only [applyOp]
      unfold create_user
      by_cases hok : s.ok = true
      · rw [if_pos hok]
        by_cases hv : (findUser s v).isSome = true
        · rw [if_pos hv]; exact hnn
        · rw [if_neg hv]
          intro u hu
          simp only [List.mem_append, List.mem_singleton] at hu
          rcases hu with hu | hu
          · exact hnn u hu
          · simp [hu]
      · rw [if_neg hok]; exact hnn
    | incWarningOp v =>
      simp only [applyOp]
      unfold update_user_warning
      by_cases hok : s.ok = true
      · rw [if_pos hok]
        exact nonneg_updateFirst (fun u => u.user_id == v)
          (fun u => { u with warning_count := u.warning_count + 1, last_warning := some now })
          (fun x hx => by show (0 : Int) ≤ x.warning_count + 1; omega) s.users hnn
      · rw [if_neg hok]; exact hnn
    | resetWarningsOp v =>
      simp only [applyOp]
      unfold reset_user_warnings
      by_cases hok : s.ok = true
      · rw [if_pos hok]
        exact nonneg_updateFirst (fun u => u.user_id == v)
          (fun u => { u with warning_count := 0 }) (fun x hx => le_refl 0) s.users hnn
      · rw [if_neg hok]; exact hnn
    | setMutedOp v b =>
      simp only [applyOp]
      unfold set_user_muted
      by_cases hok : s.ok = true
      · rw [if_pos hok]
        exact nonneg_updateFirst (fun u => u.user_id == v)
          (fun u => { u with is_muted := b }) (fun x hx => hx) s.users hnn
      · rw [if_neg hok]; exact hnn
    | setBannedOp v b =>
      simp only [applyOp]
      unfold set_user_banned
      by_cases hok : s.ok = true
      · rw [if_pos hok]
        exact nonneg_updateFirst (fun u => u.user_id == v)
          (fun u => { u with is_banned := b }) (fun x hx => hx) s.users hnn
      · rw [if_neg hok]; exact hnn
    | addWarningOp v r a =>
      simp only [applyOp]
      unfold add_warning
      by_cases hok : s.ok = true
      · rw [if_pos hok]; exact hnn
      · rw [if_neg hok]; exact hnn
    | addSubscriptionOp v d =>
      simp only [applyOp]
      unfold add_subscription
      by_cases hok : s.ok = true
      · rw [if_pos hok]
        exact nonneg_updateFirst (fun u => u.user_id == v)
          (fun u => { u with subscription_expiry := some (now + d * dayLen) })
          (fun x hx => hx) s.users hnn
      · rw [if_neg hok]; exact hnn
    | removeSubscriptionOp v =>
      simp only [applyOp]
      unfold remove_subscription
      by_cases hok : s.ok = true
      · rw [if_pos hok]
        exact nonneg_updateFirst (fun u => u.user_id == v)
          (fun u => { u with subscription_expiry := none }) (fun x hx => hx) s.users hnn
      · rw [if_neg hok]; exact hnn
  · intro hnr
    cases op with
    | createUserOp v un fn ln =>
      simp only [applyOp]
      unfold create_user
      by_cases hok : s.ok = true
      · rw [if_pos hok]
        by_cases hv : (findUser s v).isSome = true
        · rw [if_pos hv]
        · rw [if_neg hv]
          unfold countOf
          exact countOfUsers_append_mono s.users _ uid (le_refl 0)
      · rw [if_neg hok]
    | incWarningOp v =>
      simp only [applyOp]
      unfold update_user_warning
      by_cases hok : s.ok = true
      · rw [if_pos hok]
        unfold countOf
        exact countOfUsers_updateFirst_mono v uid
          (fun u => { u with warning_count := u.warning_count + 1, last_warning := some now })
          (fun x => rfl)
          (fun x => by show x.warning_count ≤ x.warning_count + 1; omega) s.users
      · rw [if_neg hok]
    | resetWarningsOp v => simp [isResetOp] at hnr
    | setMutedOp v b =>
      rw [show applyOp now s (StoreOp.setMutedOp v b) = set_user_muted s v b from rfl,
        set_user_muted_countOf]
    | setBannedOp v b =>
      rw [show applyOp now s (StoreOp.setBannedOp v b) = set_user_banned s v b from rfl,
        set_user_banned_countOf]
    | addWarningOp v r a =>
      simp only [applyOp]
      unfold countOf countOfUsers
      rw [add_warning_users]
    | addSubscriptionOp v d =>
      simp only [applyOp]
      unfold add_subscription
      by_cases hok : s.ok = true
      · rw [if_pos hok]
        unfold countOf
        exact countOfUsers_updateFirst_mono v uid
          (fun u => { u with subscription_expiry := some (now + d * dayLen) })
          (fun x => rfl) (fun x => le_refl _) s.users
      · rw [if_neg hok]
    | removeSubscriptionOp v =>
      simp only [applyOp]
      unfold remove_subscription
      by_cases hok : s.ok = true
      · rw [if_pos hok]
        unfold countOf
        exact countOfUsers_updateFirst_mono v uid
          (fun u => { u with subscription_expiry := none })
          (fun x => rfl) (fun x => le_refl _) s.users
      · rw [if_neg hok]
  · intro hok hsome
    simp only [applyOp]
    unfold reset_user_warnings countOf
    rw [if_pos hok]
    unfold countOfUsers
    rw [find?_updateFirst_same (fun u => u.user_id == uid)
      (fun u => { u with warning_count := 0 }) (fun x => rfl) s.users]
    obtain ⟨u, hu⟩ := Option.isSome_iff_exists.mp hsome
    rw [show s.users.find? (fun x => x.user_id == uid) = some u from hu]
    rfl

/-- C5 amended, witness: an increment preserves the monotonicity bound and
a reset zeroes the count on `sFix`. -/
theorem c5_amended_witness :
    countOf sFix 1 ≤ countOf (applyOp 0 sFix (StoreOp.incWarningOp 1)) 1
    ∧ countOf (applyOp 0 sFix (StoreOp.resetWarningsOp 1)) 1 = 0 := by
  have h := c5_amended 0 sFix (StoreOp.incWarningOp 1) 1 (by decide)
  exact ⟨h.2.1 rfl, h.2.2 rfl rfl⟩

theorem store_eq_of_parts (a b : Store) (h1 : a.users = b.users)
    (h2 : a.warnings = b.warnings) (h3 : a.subscriptions = b.subscriptions)
    (h4 : a.ok = b.ok) : a = b := by
  cases a
  cases b
  congr 1

theorem update_user_warning_subscriptions (s : Store) (uid : Int) (b : Bool) (now : Time) :
    ((update_user_warning s uid b now).1).subscriptions = s.subscriptions := by
  unfold update_user_warning; split <;> rfl

theorem dispatch_store_of_one (tr : Transport) (now : Time) (s2 : Store) (uid : Int)
    (effChat : Option Int) (reason : String) (delEvents : List Event) :
    (dispatch tr now s2 uid effChat reason 1 delEvents).store = s2 := by
  unfold dispatch
  cases effChat <;> by_cases hw : tr.warnSendOk <;> simp [hw]

theorem dispatch_action_of_one (tr : Transport) (now : Time) (s2 : Store) (uid chatId : Int)
    (reason : String) (delEvents : List Event) (hw : tr.warnSendOk = true) :
    (dispatch tr now s2 uid (some chatId) reason 1 delEvents).action = some "WARNING" := by
  simp [dispatch, hw]

/-- a violation by a user with no users-collection record: the count read
is the fallback 0, the new count is 1, and after step 3-4 the store has
only grown by the Warning record (the `$inc` matched nothing). -/
theorem handle_violation_missing (adminId : Int) (tr : Transport) (now : Time)
    (s : Store) (uid chatId : Int) (reason : String) (del : Bool)
    (hok : s.ok = true) (hu : findUser s uid = none) :
    handle_violation adminId tr now s (some uid) (some chatId) reason del
      = dispatch tr now
          { s with warnings := s.warnings ++ [⟨uid, reason, adminId, now, false⟩] }
          uid (some chatId) reason 1
          (if del then (if tr.deleteOk then [Event.deletedMessage] else []) else []) := by
  have hcur : currentCount s uid = 0 := by
    unfold currentCount get_user
    rw [if_pos hok, hu]
  have hs1 : add_warning s uid reason adminId now
      = { s with warnings := s.warnings ++ [⟨uid, reason, adminId, now, false⟩] } := by
    unfold add_warning
    rw [if_pos hok]
  have hfind1 : findUser (add_warning s uid reason adminId now) uid = none := by
    unfold findUser
    rw [add_warning_users]
    exact hu
  have hs2 : (update_user_warning (add_warning s uid reason adminId now) uid true now).1
      = add_warning s uid reason adminId now := by
    apply store_eq_of_parts
    · rw [update_user_warning_users_of_none _ _ _ _ hfind1]
    · exact update_user_warning_warnings _ _ _ _
    · exact update_user_warning_subscriptions _ _ _ _
    · exact update_user_warning_ok _ _ _ _
  rw [handle_violation_eq_dispatch, hs2, hs1, hcur]
  norm_num

/-- C9 counterexample: ids 1 and 2 both hold expired subscriptions, but id
1 has no users-collection record; the sweep skips id 1 entirely — no
removal attempt, no subscription deletion, no ban flag, no notification,
its subscription record survives — while id 2 is fully processed. -/
theorem c9_counterexample :
    (check_expired_subscriptions (some 5) [] 10 sSweepFix).2
      = [Event.banMember 5 2, Event.adminNotifyExpired 2]
    ∧ (findSub (check_expired_subscriptions (some 5) [] 10 sSweepFix).1 1).isSome = true
    ∧ 1 ∈ get_expired_subscriptions sSweepFix 10 := by
  exact ⟨by decide, by decide, by decide⟩

/-- C9 amended: the sweep folds the per-user step over the expired list;
a user whose step fails (missing users-collection record, or a raising
`ban_chat_member`) is skipped with no effect and the remaining users are
processed exactly as if that user were absent; a user with a record whose
ban succeeds undergoes, in order, the group ban, subscription deletion,
ban flag and admin notification. -/
theorem c9_amended (banFails : List Int) (g : Int) (now : Time) (s : Store)
    (evs : List Event) (x : Int) (rest : List Int) :
    check_expired_subscriptions (some g) banFails now s
      = (get_expired_subscriptions s now).foldl
          (fun acc uid => sweepUser banFails g acc uid) (s, [])
    ∧ ((get_user s x = none ∨ banFails.contains x = true) →
        List.foldl (fun acc uid => sweepUser banFails g acc uid) ((s, evs) : Store × List Event) (x :: rest)
          = List.foldl (fun acc uid => sweepUser banFails g acc uid) (s, evs) rest)
    ∧ (∀ u, get_user s x = some u → banFails.contains x = false →
        sweepUser banFails g (s, evs) x
          = (set_user_banned (remove_subscription s x) x true,
             evs ++ [Event.banMember g x, Event.adminNotifyExpired x])) := by
  refine ⟨rfl, ?_, ?_⟩
  · intro h
    have hskip : sweepUser banFails g (s, evs) x = (s, evs) := by
      unfold sweepUser
      rcases h with h | h
      · rw [show get_user ((s, evs) : Store × List Event).1 x = none from h]
      · cases hg : get_user ((s, evs) : Store × List Event).1 x with
        | none => rfl
        | some u => simp only [h]; rfl
    rw [List.foldl_cons, hskip]
  · intro u hu hb
    unfold sweepUser
    rw [show get_user ((s, evs) : Store × List Event).1 x = some u from hu]
    rw [if_neg (by rw [hb]; exact Bool.false_ne_true)]

/-- C9 amended, witness: on `sSweepFix` the recordless id 1 is skipped and
the loop continues; id 2 with a record is fully processed. -/
theorem c9_amended_witness :
    check_expired_subscriptions (some 5) [] 10 sSweepFix
      = (get_expired_subscriptions sSweepFix 10).foldl
          (fun acc uid => sweepUser [] 5 acc uid) (sSweepFix, [])
    ∧ List.foldl (fun acc uid => sweepUser [] 5 acc uid) ((sSweepFix, []) : Store × List Event) (1 :: [2])
        = List.foldl (fun acc uid => sweepUser [] 5 acc uid) (sSweepFix, []) [2] := by
  have h := c9_amended [] 5 10 sSweepFix [] 1 [2]
  exact ⟨h.1, h.2.1 (Or.inl (by decide))⟩

/-- C10: for an offender with no users-collection record (never registered
by the membership handler), the counter increment modifies nothing and
returns false, so over any number of automatic violations the user record
never appears, the count read stays 0, each violation dispatches tier
WARNING (never MUTE or BAN), and a Warning record is inserted each time. -/
theorem c10_missing_user (adminId : Int) (tr : Transport) (now : Time) (s : Store)
    (uid chatId : Int) (reason : String) (n : Nat)
    (hok : s.ok = true) (hu : findUser s uid = none) (hsend : tr.warnSendOk = true) :
    update_user_warning s uid true now = (s, false)
    ∧ findUser (violLoop adminId tr now uid chatId reason n s) uid = none
    ∧ (violLoop adminId tr now uid chatId reason n s).warnings.length
        = s.warnings.length + n
    ∧ (handle_violation adminId tr now (violLoop adminId tr now uid chatId reason n s)
        (some uid) (some chatId) reason true).action = some "WARNING" := by
  have key : ∀ (m : Nat) (t : Store), t.ok = true → findUser t uid = none →
      (violLoop adminId tr now uid chatId reason m t).ok = true
      ∧ findUser (violLoop adminId tr now uid chatId reason m t) uid = none
      ∧ (violLoop adminId tr now uid chatId reason m t).warnings.length
          = t.warnings.length + m := by
    intro m
    induction m with
    | zero =>
      intro t h1 h2
      exact ⟨h1, h2, by simp [violLoop]⟩
    | succ k ih =>
      intro t h1 h2
      have hstep := handle_violation_missing adminId tr now t uid chatId reason true h1 h2
      have hst : (handle_violation adminId tr now t (some uid) (some chatId) reason true).store
          = { t with warnings := t.warnings ++ [⟨uid, reason, adminId, now, false⟩] } := by
        rw [hstep, dispatch_store_of_one]
      have hloop : violLoop adminId tr now uid chatId reason (k + 1) t
          = violLoop adminId tr now uid chatId reason k
              ({ t with warnings := t.warnings ++ [⟨uid, reason, adminId, now, false⟩] }) := by
        rw [show violLoop adminId tr now uid chatId reason (k + 1) t
          = violLoop adminId tr now uid chatId reason k
              (handle_violation adminId tr now t (some uid) (some chatId) reason true).store
          from rfl, hst]
      rcases ih { t with warnings := t.warnings ++ [⟨uid, reason, adminId, now, false⟩] }
          h1 h2 with ⟨ia, ib, ic⟩
      refine ⟨by rw [hloop]; exact ia, by rw [hloop]; exact ib, ?_⟩
      rw [hloop, ic]
      simp
      omega
  rcases key n s hok hu with ⟨ka, kb, kc⟩
  refine ⟨?_, kb, kc, ?_⟩
  · unfold update_user_warning
    rw [if_pos hok]
    refine Prod.ext ?_ ?_
    · exact store_eq_of_parts _ _ (updateFirst_of_find?_none _ _ s.users hu) rfl rfl rfl
    · rw [show (findUser s uid) = none from hu]
      rfl
  · have hstep := handle_violation_missing adminId tr now
      (violLoop adminId tr now uid chatId reason n s) uid chatId reason true ka kb
    rw [hstep]
    exact dispatch_action_of_one _ _ _ _ _ _ _ hsend

/-- C10, witness after two violations by an unregistered user. -/
theorem c10_missing_user_witness :
    update_user_warning sEmpty 1 true 0 = (sEmpty, false)
    ∧ findUser (violLoop 7 trAll 0 1 5 "r" 2 sEmpty) 1 = none
    ∧ (violLoop 7 trAll 0 1 5 "r" 2 sEmpty).warnings.length = sEmpty.warnings.length + 2
    ∧ (handle_violation 7 trAll 0 (violLoop 7 trAll 0 1 5 "r" 2 sEmpty)
        (some 1) (some 5) "r" true).action = some "WARNING" :=
  c10_missing_user 7 trAll 0 sEmpty 1 5 "r" 2 rfl rfl rfl

end PremiumBot
